import Mathlib

/-!
# Verification of the progress tracker (src/tools/progress_tracker.py)

Shallow embedding of `ProgressTracker`, `TaskPlan` and `TaskStep`.

Modelling decisions, each traced to the source:
* The persistent state directory (one JSON file `{task_id}.json` per plan)
  is modelled as a functional store `String → Option TaskPlan`; `_save_plan`
  writes the entry keyed by `plan.task_id`, `load_plan` reads the entry for
  the requested `task_id`.  The JSON round trip of `_save_plan`/`load_plan`
  is the identity on the data model (dataclass → dict → JSON → dict →
  dataclass preserves every field), so the store holds plans directly.
* `datetime.now().isoformat()` is nondeterministic; every operation takes
  the current timestamp as an explicit `now : String` argument.
* JSON-serialisable Python values (metadata values, step outputs,
  checkpoint payloads) are the inductive `JValue`; Python dicts are
  insertion-ordered association lists with `dictGet`/`dictSet` mirroring
  `d.get(k)` / `d[k] = v` on unique-key dicts.
* Python exceptions are `Except PyErr`; `ValueError(f"Task {id} not found")`
  is `PyErr.valueError`, `IndexError` from list indexing is
  `PyErr.indexError`, `ZeroDivisionError` from `completed/total` is
  `PyErr.zeroDivisionError`, and `AttributeError` from calling `.get` on a
  non-dict is `PyErr.attributeError`.
* Python list indexing `l[i]` accepts negative indices (counted from the
  end); `pyIndex`/`pySet` reproduce that, raising `IndexError` exactly when
  the normalised index is out of range.
* Python `round(x, 1)` rounds half to even; `pyRound1` is that rounding on
  exact rationals (the idealisation of the float computation).
-/

/-- JSON-serialisable Python value (metadata entries, step output,
checkpoint payloads). Objects are insertion-ordered key/value lists. -/
inductive JValue where
  | null
  | bool (b : Bool)
  | int (n : Int)
  | str (s : String)
  | arr (items : List JValue)
  | obj (entries : List (String × JValue))

/-- A Python dict of JSON values: insertion-ordered association list. -/
abbrev JObj := List (String × JValue)

/-- Python `d.get(k)` on a unique-key Python dict. -/
def dictGet : JObj → String → Option JValue
  | [], _ => none
  | (k', v') :: t, k => if k' = k then some v' else dictGet t k

/-- Python `d[k] = v` on a unique-key Python dict: replace in place, else append. -/
def dictSet : JObj → String → JValue → JObj
  | [], k, v => [(k, v)]
  | (k', v') :: t, k, v =>
      if k' = k then (k, v) :: t else (k', v') :: dictSet t k v

/-- Truthiness of an optional Python dict (`if output:`): `None` and the
empty dict are falsy. -/
def truthyObj : Option JObj → Bool
  | none => false
  | some kvs => !kvs.isEmpty

/-- The `@dataclass TaskStep` — an individual step in a task plan. -/
structure TaskStep where
  id : String
  description : String
  status : String
  started_at : Option String := none
  completed_at : Option String := none
  error : Option String := none
  output : Option JObj := none

/-- The `@dataclass TaskPlan` — a complete task plan with checkpoint data.
`current_step_index` is a Python `int` and can be stored negative, so it is
an `Int`. -/
structure TaskPlan where
  task_id : String
  title : String
  steps : List TaskStep
  created_at : String
  updated_at : String
  total_steps : Nat
  completed_steps : Nat
  current_step_index : Int
  metadata : JObj

/-- Python exceptions raised by the tracker's code paths. -/
inductive PyErr where
  | valueError (msg : String)
  | indexError
  | zeroDivisionError
  | attributeError
deriving DecidableEq

/-- The tracker's state directory: one persisted plan per task id. -/
def Store := String → Option TaskPlan

/-- A directory with no plan files. -/
def emptyStore : Store := fun _ => none

/-- Method `_save_plan`: writes `{plan.task_id}.json`, overwriting any previous
file for that task id. -/
def savePlan (store : Store) (plan : TaskPlan) : Store :=
  fun k => if k = plan.task_id then some plan else store k

/-- Method `load_plan`: reads `{task_id}.json`, `None` when the file is absent. -/
def load_plan (store : Store) (task_id : String) : Option TaskPlan :=
  store task_id

/-- Normalise a Python list index: negative indices count from the end;
`none` when out of range (Python raises `IndexError`). -/
def pyNormIdx (len : Nat) (i : Int) : Option Nat :=
  let j : Int := if i < 0 then i + len else i
  if 0 ≤ j ∧ j < len then some j.toNat else none

/-- Python `l[i]` with negative-index semantics. -/
def pyIndex {α : Type} (l : List α) (i : Int) : Option α :=
  match pyNormIdx l.length i with
  | some j => l.get? j
  | none => none

/-- Python `l[i] = a` (only used where `l[i]` already succeeded). -/
def pySet {α : Type} (l : List α) (i : Int) (a : α) : List α :=
  match pyNormIdx l.length i with
  | some j => l.set j a
  | none => l

/-- Method `create_plan`: builds pending steps `{task_id}_step_{i}`, a fresh plan,
persists it and returns it. `metadata or {}` maps `None` to the empty
dict. -/
def create_plan (store : Store) (task_id title : String) (steps : List String)
    (metadata : Option JObj) (now : String) : Store × TaskPlan :=
  let task_steps := steps.enum.map (fun p =>
    { id := task_id ++ "_step_" ++ toString p.1
      description := p.2
      status := "pending" : TaskStep })
  let plan : TaskPlan :=
    { task_id := task_id
      title := title
      steps := task_steps
      created_at := now
      updated_at := now
      total_steps := task_steps.length
      completed_steps := 0
      current_step_index := 0
      metadata := metadata.getD [] }
  (savePlan store plan, plan)

/-- Method `update_step`: update the status of one step.  Mirrors the source's
`if/elif` chain, the unguarded `completed_steps += 1`, the `if output:`
truthiness test, and the unconditional `plan.updated_at = now`. -/
def update_step (store : Store) (task_id : String) (step_index : Int)
    (status : String) (output : Option JObj) (error : Option String)
    (now : String) : Except PyErr (Store × TaskPlan) :=
  match load_plan store task_id with
  | none => .error (.valueError ("Task " ++ task_id ++ " not found"))
  | some plan =>
    match pyIndex plan.steps step_index with
    | none => .error .indexError
    | some step =>
      let step1 : TaskStep :=
        if status = "in_progress" then
          if step.status = "pending" then { step with started_at := some now }
          else step
        else if status = "completed" then { step with completed_at := some now }
        else if status = "failed" then
          { step with completed_at := some now, error := error }
        else step
      let completed' : Nat :=
        if status = "completed" then plan.completed_steps + 1
        else plan.completed_steps
      let step2 := { step1 with status := status }
      let step3 := if truthyObj output then { step2 with output := output }
                   else step2
      let plan' : TaskPlan :=
        { plan with
            steps := pySet plan.steps step_index step3
            completed_steps := completed'
            updated_at := now
            current_step_index :=
              if status = "in_progress" then step_index
              else plan.current_step_index }
      .ok (savePlan store plan', plan')

/-- Method `get_next_step`: first step whose status is `"pending"`, else `None`;
`None` when the plan does not exist. -/
def get_next_step (store : Store) (task_id : String) : Option TaskStep :=
  match load_plan store task_id with
  | none => none
  | some plan => plan.steps.find? (fun s => s.status == "pending")

/-- Round half to even on integers represented as an exact rational. -/
def roundHalfEven (q : ℚ) : ℤ :=
  let f : ℤ := q.num.fdiv q.den
  let frac : ℚ := q - (f : ℚ)
  if frac < 1 / 2 then f
  else if 1 / 2 < frac then f + 1
  else if f % 2 = 0 then f else f + 1

/-- Python `round(x, 1)` on exact rationals. -/
def pyRound1 (q : ℚ) : ℚ := ((roundHalfEven (q * 10) : ℤ) : ℚ) / 10

/-- The summary record built by `get_progress_summary`. -/
structure ProgressSummary where
  task_id : String
  title : String
  progress : String
  percentage : ℚ
  current_step : String
  status : String
  steps : List (String × String)

/-- Result of `get_progress_summary`: either the structured summary or the
explicit `{"error": "Task not found"}` record. -/
inductive SummaryResult where
  | errRecord (msg : String)
  | summary (s : ProgressSummary)

/-- Method `get_progress_summary`.  The dict literal is evaluated left to right:
the `percentage` division raises `ZeroDivisionError` before `current_step`
is computed, and `current_step` indexes `plan.steps[plan.current_step_index]`
whenever `current_step_index < len(plan.steps)` (negative indices
included), else yields the sentinel `"Complete"`. -/
def get_progress_summary (store : Store) (task_id : String) :
    Except PyErr SummaryResult :=
  match load_plan store task_id with
  | none => .ok (.errRecord "Task not found")
  | some plan =>
    if plan.total_steps = 0 then .error .zeroDivisionError
    else
      let cur : Except PyErr String :=
        if plan.current_step_index < (plan.steps.length : Int) then
          match pyIndex plan.steps plan.current_step_index with
          | none => .error .indexError
          | some st => .ok st.description
        else .ok "Complete"
      match cur with
      | .error e => .error e
      | .ok curDesc =>
        .ok (.summary
          { task_id := task_id
            title := plan.title
            progress := toString plan.completed_steps ++ "/" ++
              toString plan.total_steps
            percentage :=
              pyRound1 ((plan.completed_steps : ℚ) / (plan.total_steps : ℚ)
                * 100)
            current_step := curDesc
            status :=
              if plan.completed_steps = plan.total_steps then "complete"
              else "in_progress"
            steps := plan.steps.map (fun st => (st.description, st.status)) })

/-- Method `checkpoint`: overwrite `metadata["last_checkpoint"]` with
`{timestamp, data}` and re-persist the plan; `ValueError` when the plan
does not exist. -/
def checkpoint (store : Store) (task_id : String) (checkpoint_data : JValue)
    (now : String) : Except PyErr Store :=
  match load_plan store task_id with
  | none => .error (.valueError ("Task " ++ task_id ++ " not found"))
  | some plan =>
    let plan' := { plan with
      metadata := dictSet plan.metadata "last_checkpoint"
        (.obj [("timestamp", .str now), ("data", checkpoint_data)]) }
    .ok (savePlan store plan')

/-- Method `restore_checkpoint`: `plan.metadata.get("last_checkpoint", {}).get("data")`;
`None` when the plan or the checkpoint is absent, `AttributeError` if a
caller stored a non-dict under `last_checkpoint`. -/
def restore_checkpoint (store : Store) (task_id : String) :
    Except PyErr (Option JValue) :=
  match load_plan store task_id with
  | none => .ok none
  | some plan =>
    match dictGet plan.metadata "last_checkpoint" with
    | none => .ok none
    | some (.obj kvs) => .ok (dictGet kvs "data")
    | some _ => .error .attributeError

/-- Number of steps whose status is `"completed"`. -/
def countCompleted (steps : List TaskStep) : Nat :=
  (steps.filter (fun s => s.status == "completed")).length

/-- Placeholder plan for total extraction helpers. -/
def dummyPlan : TaskPlan :=
  { task_id := "", title := "", steps := [], created_at := "",
    updated_at := "", total_steps := 0, completed_steps := 0,
    current_step_index := 0, metadata := [] }

/-- Store of a successful `update_step`, else the fallback. -/
def okStore (e : Except PyErr (Store × TaskPlan)) (d : Store) : Store :=
  match e with
  | .ok p => p.1
  | .error _ => d

/-- Plan returned by a successful `update_step`, else the fallback. -/
def okPlan (e : Except PyErr (Store × TaskPlan)) (d : TaskPlan) : TaskPlan :=
  match e with
  | .ok p => p.2
  | .error _ => d

/-- Store of a successful `checkpoint`, else the fallback. -/
def okStoreC (e : Except PyErr Store) (d : Store) : Store :=
  match e with
  | .ok s => s
  | .error _ => d

/-- Demo directory: one plan `t1` with a single step. -/
def s1 : Store := (create_plan emptyStore "t1" "T" ["a"] none "n0").1

/-- Store `s1` after marking step 0 completed once. -/
def s2 : Store := okStore (update_step s1 "t1" 0 "completed" none none "n1") s1

/-- Plan stored in `s2`. -/
def p2 : TaskPlan :=
  okPlan (update_step s1 "t1" 0 "completed" none none "n1") dummyPlan

/-- Store `s2` after marking step 0 completed a second time. -/
def s3 : Store := okStore (update_step s2 "t1" 0 "completed" none none "n2") s2

/-- Demo directory: plan `t2` with two steps, step 0 completed. -/
def w1 : Store := (create_plan emptyStore "t2" "W" ["a", "b"] none "m0").1

/-- Plan stored in `w1`. -/
def w1plan : TaskPlan := (create_plan emptyStore "t2" "W" ["a", "b"] none "m0").2

/-- Store `w1` after marking step 0 completed. -/
def w2 : Store := okStore (update_step w1 "t2" 0 "completed" none none "m1") w1

/-- Plan stored in `w2`. -/
def w2plan : TaskPlan :=
  okPlan (update_step w1 "t2" 0 "completed" none none "m1") dummyPlan

/-- Demo directory: zero-step plan `t0`. -/
def z1 : Store := (create_plan emptyStore "t0" "Empty" [] none "k0").1

/-- Plan stored in `z1`. -/
def zplan : TaskPlan := (create_plan emptyStore "t0" "Empty" [] none "k0").2

/-- Store `s1` after a checkpoint with payload `"payload"`. -/
def c1 : Store := okStoreC (checkpoint s1 "t1" (.str "payload") "n1") s1

/-- Plan stored in `s1`. -/
def s1plan : TaskPlan := (create_plan emptyStore "t1" "T" ["a"] none "n0").2

/-- Placeholder step for total extraction helpers. -/
def dummyStep : TaskStep := { id := "", description := "", status := "" }

/-- Store `s1` after marking step 0 in progress. -/
def s4 : Store :=
  okStore (update_step s1 "t1" 0 "in_progress" none none "n1") s1

/-- Plan stored in `s4`. -/
def p4 : TaskPlan :=
  okPlan (update_step s1 "t1" 0 "in_progress" none none "n1") dummyPlan

/-- Plan stored in `c1`. -/
def c1plan : TaskPlan := (load_plan c1 "t1").getD dummyPlan

/-- The step returned by `get_next_step` on `w2`. -/
def w2step : TaskStep := (get_next_step w2 "t2").getD dummyStep

/-! ## Helper lemmas on the Python primitives -/

theorem pyNormIdx_eq_none_iff (len : Nat) (i : Int) :
    pyNormIdx len i = none ↔ i < -(len : Int) ∨ (len : Int) ≤ i := by
  by_cases hi : i < 0
  · simp only [pyNormIdx, if_pos hi, ite_eq_right_iff]
    constructor
    · intro h
      by_cases hc : 0 ≤ i + (len : Int) ∧ i + (len : Int) < (len : Int)
      · exact absurd (h hc) (by simp)
      · omega
    · intro h hc
      exfalso
      omega
  · simp only [pyNormIdx, if_neg hi, ite_eq_right_iff]
    constructor
    · intro h
      by_cases hc : 0 ≤ i ∧ i < (len : Int)
      · exact absurd (h hc) (by simp)
      · omega
    · intro h hc
      exfalso
      omega

theorem pyNormIdx_lt {len : Nat} {i : Int} {j : Nat}
    (h : pyNormIdx len i = some j) : j < len := by
  by_cases hi : i < 0
  · simp only [pyNormIdx, if_pos hi] at h
    split at h
    · rename_i hc
      cases h
      omega
    · exact Option.noConfusion h
  · simp only [pyNormIdx, if_neg hi] at h
    split at h
    · rename_i hc
      cases h
      omega
    · exact Option.noConfusion h

theorem pyIndex_eq_none_iff {α : Type} (l : List α) (i : Int) :
    pyIndex l i = none ↔ i < -(l.length : Int) ∨ (l.length : Int) ≤ i := by
  rw [← pyNormIdx_eq_none_iff l.length i]
  cases h : pyNormIdx l.length i with
  | none => simp [pyIndex, h]
  | some j =>
    have hj := pyNormIdx_lt h
    simp only [pyIndex, h]
    rw [List.get?_eq_get hj]
    simp

theorem pyIndex_isSome_of {α : Type} (l : List α) (i : Int)
    (h1 : -(l.length : Int) ≤ i) (h2 : i < (l.length : Int)) :
    ∃ a, pyIndex l i = some a := by
  cases h : pyIndex l i with
  | none =>
    rcases (pyIndex_eq_none_iff l i).mp h with hc | hc <;> omega
  | some a => exact ⟨a, rfl⟩

theorem pyIndex_pySet_self {α : Type} {l : List α} {i : Int} {b : α} (a : α)
    (h : pyIndex l i = some b) : pyIndex (pySet l i a) i = some a := by
  cases hn : pyNormIdx l.length i with
  | none =>
    exfalso
    simp only [pyIndex, hn] at h
    exact Option.noConfusion h
  | some j =>
    have hj := pyNormIdx_lt hn
    simp only [pySet, hn, pyIndex, List.length_set]
    rw [List.get?_eq_getElem?]
    exact List.getElem?_set_eq_of_lt a hj

theorem dictGet_dictSet_self (d : JObj) (k : String) (v : JValue) :
    dictGet (dictSet d k v) k = some v := by
  induction d with
  | nil => simp [dictGet, dictSet]
  | cons kv t ih =>
    by_cases h : kv.1 = k
    · simp [dictGet, dictSet, h]
    · simp [dictGet, dictSet, h, ih]

theorem dictGet_dictSet_ne (d : JObj) (k k' : String) (v : JValue)
    (h : k' ≠ k) : dictGet (dictSet d k v) k' = dictGet d k' := by
  induction d with
  | nil => simp [dictGet, dictSet, Ne.symm h]
  | cons kv t ih =>
    obtain ⟨k1, v1⟩ := kv
    by_cases hk : k1 = k
    · simp [dictGet, dictSet, hk, Ne.symm h]
    · simp [dictGet, dictSet, hk, ih]

theorem find?_eq_some_first {α : Type} (p : α → Bool) :
    ∀ (l : List α) (a : α), l.find? p = some a →
      p a = true ∧ ∃ j, l.get? j = some a ∧
        ∀ m, m < j → ∀ b, l.get? m = some b → p b = false := by
  intro l
  induction l with
  | nil => intro a h; exact Option.noConfusion h
  | cons x t ih =>
    intro a h
    by_cases hx : p x
    · rw [List.find?_cons_of_pos _ hx] at h
      cases h
      exact ⟨hx, 0, rfl, fun m hm => absurd hm (by omega)⟩
    · rw [List.find?_cons_of_neg _ (by simp [hx])] at h
      obtain ⟨hpa, j, hj, hfirst⟩ := ih a h
      refine ⟨hpa, j + 1, hj, ?_⟩
      intro m hm b hb
      match m with
      | 0 =>
        simp only [List.get?] at hb
        cases hb
        simpa using hx
      | m + 1 => exact hfirst m (by omega) b hb

/-! ## Claim theorems -/

/-- C1: the claimed invariant fails on the code.  After
`create_plan("t1", "T", ["a"])` followed by two
`update_step("t1", 0, "completed")` calls, the loaded plan has
`completed_steps = 2` although only 1 of its steps has status
`"completed"` — `update_step` increments the counter on every
`"completed"` update, with no transition guard.  (`total_steps = 1 =
len(steps)` does hold here.) -/
theorem c1_completed_steps_invariant_fails :
    (load_plan s3 "t1").map
        (fun p => (p.completed_steps, countCompleted p.steps,
          p.total_steps, p.steps.length))
      = some (2, 1, 1, 1) := rfl

/-- C2: idempotence of repeated `completed` updates fails on the code.
After the first `update_step("t1", 0, "completed")` the plan has
`completed_steps = 1`; the second identical call increments it again to
2. -/
theorem c2_second_completed_call_increments_again :
    ((load_plan s2 "t1").map (fun p => p.completed_steps) = some 1) ∧
    ((load_plan s3 "t1").map (fun p => p.completed_steps) = some 2) :=
  ⟨rfl, rfl⟩

/-- C10: `create_plan` accepts an empty step list and persists a plan with
`total_steps = 0`, and `get_progress_summary` divides `completed_steps /
total_steps` with no guard, so it raises `ZeroDivisionError` on every
zero-step plan. -/
theorem c10_zero_total_steps_division_unguarded (store : Store)
    (tid : String) (p : TaskPlan) :
    ((load_plan z1 "t0").map (fun q => q.total_steps) = some 0) ∧
    (load_plan store tid = some p → p.total_steps = 0 →
      get_progress_summary store tid = .error .zeroDivisionError) := by
  refine ⟨rfl, fun hp h0 => ?_⟩
  simp [get_progress_summary, hp, h0]

/-- Witness for C10 at the zero-step plan `t0`. -/
theorem c10_witness :
    get_progress_summary z1 "t0" = .error .zeroDivisionError :=
  (c10_zero_total_steps_division_unguarded z1 "t0" zplan).2 rfl rfl

/-- C6: after `checkpoint(task_id, X)` on an existing plan (stored, as the
tracker always stores it, under its own `task_id`),
`restore_checkpoint(task_id)` on the resulting state directory returns `X`
unchanged.  The state directory is the only state a tracker instance has,
so this covers a fresh instance over the same storage root. -/
theorem c6_checkpoint_then_restore_returns_data (store : Store)
    (tid : String) (data : JValue) (now : String) (p : TaskPlan)
    (hp : load_plan store tid = some p) (hid : p.task_id = tid)
    (store' : Store) (h : checkpoint store tid data now = .ok store') :
    restore_checkpoint store' tid = .ok (some data) := by
  simp only [checkpoint, hp] at h
  obtain rfl : _ = store' := Except.ok.inj h
  simp [restore_checkpoint, load_plan, savePlan, hid,
    dictGet_dictSet_self, dictGet]

/-- Witness for C6: checkpoint payload `"payload"` on plan `t1` is restored
unchanged. -/
theorem c6_witness :
    restore_checkpoint c1 "t1" = .ok (some (.str "payload")) :=
  c6_checkpoint_then_restore_returns_data s1 "t1" (.str "payload") "n1"
    s1plan rfl rfl c1 rfl

/-- C3 counterexample: `checkpoint` does not refresh `updated_at`.  On the
plan `t1` whose `updated_at` is `"n0"`, a checkpoint at time `"n1"`
succeeds yet the persisted plan still has `updated_at = "n0" ≠ "n1"` —
refuting the claim that every mutating operation (checkpoint included)
sets `updated_at` to the current time. -/
theorem c3_checkpoint_leaves_updated_at :
    (((checkpoint s1 "t1" (.obj []) "n1").toOption.bind
        (fun s => load_plan s "t1")).map (fun p => p.updated_at)
      = some "n0") ∧ ("n0" : String) ≠ "n1" :=
  ⟨rfl, by decide⟩

/-- C3 amended: `update_step` sets the persisted plan's `updated_at` to the
current time on every successful call, and the updated plan is persisted
under its task id; `checkpoint`, by contrast, leaves `updated_at`
unchanged in the persisted plan. -/
theorem c3_updated_at_refreshed_by_update_step_only (store : Store)
    (tid : String) (i : Int) (status : String) (out : Option JObj)
    (err : Option String) (data : JValue) (now : String) :
    (∀ store' p', update_step store tid i status out err now
        = .ok (store', p') →
      p'.updated_at = now ∧ load_plan store' p'.task_id = some p') ∧
    (∀ p store', load_plan store tid = some p →
      checkpoint store tid data now = .ok store' →
      ∀ q, load_plan store' tid = some q → q.updated_at = p.updated_at) := by
  constructor
  · intro store' p' h
    cases hl : load_plan store tid with
    | none =>
      simp only [update_step, hl] at h
      exact Except.noConfusion h
    | some p =>
      cases hs : pyIndex p.steps i with
      | none =>
        simp only [update_step, hl, hs] at h
        exact Except.noConfusion h
      | some st =>
        simp only [update_step, hl, hs] at h
        obtain ⟨h1, h2⟩ := Prod.mk.injEq .. ▸ Except.ok.inj h
        subst h1
        subst h2
        exact ⟨rfl, by simp [load_plan, savePlan]⟩
  · intro p store' hl hc q hq
    rw [checkpoint, hl] at hc
    obtain rfl : _ = store' := Except.ok.inj hc
    rw [load_plan, savePlan] at hq
    by_cases ht : tid = p.task_id
    · rw [if_pos ht] at hq
      obtain rfl : _ = q := Option.some.inj hq
      rfl
    · rw [if_neg ht] at hq
      rw [load_plan] at hl
      rw [hl] at hq
      obtain rfl : p = q := Option.some.inj hq
      rfl

/-- Witness for C3 at the completion of step 0 of plan `t1`. -/
theorem c3_witness :
    p2.updated_at = "n1" ∧ load_plan s2 p2.task_id = some p2 :=
  (c3_updated_at_refreshed_by_update_step_only s1 "t1" 0 "completed" none
    none (.obj []) "n1").1 s2 p2 rfl

/-- C4 counterexample: on the 1-step plan `t1`, `update_step` with
`step_index = -1` does not fail although `-1` is outside
`[0, total_steps)` — Python list indexing accepts negative indices, so the
call succeeds and updates the last step. -/
theorem c4_negative_index_accepted :
    ((load_plan s1 "t1").map (fun p => p.total_steps) = some 1) ∧
    (update_step s1 "t1" (-1) "pending" none none "n1").toOption.isSome
      = true :=
  ⟨rfl, rfl⟩

/-- C4 amended: `update_step` fails with the `TaskNotFound` kind
(`ValueError`) when `task_id` has no persisted plan; on an existing plan it
fails with the `IndexOutOfRange` kind (`IndexError`) exactly when
`step_index` is outside `[-len(steps), len(steps))` — negative indices
address steps from the end, Python-style — and succeeds, returning the
updated plan, for every `step_index` in `[0, len(steps))` (where
`len(steps)` is `total_steps` for every plan the tracker creates). -/
theorem c4_update_step_error_conditions (store : Store) (tid : String)
    (i : Int) (status : String) (out : Option JObj) (err : Option String)
    (now : String) :
    (load_plan store tid = none →
      update_step store tid i status out err now
        = .error (.valueError ("Task " ++ tid ++ " not found"))) ∧
    (∀ p, load_plan store tid = some p →
      ((update_step store tid i status out err now = .error .indexError) ↔
        (i < -(p.steps.length : Int) ∨ (p.steps.length : Int) ≤ i)) ∧
      (0 ≤ i → i < (p.steps.length : Int) →
        ∃ store' p', update_step store tid i status out err now
          = .ok (store', p'))) := by
  constructor
  · intro hl
    simp only [update_step, hl]
  · intro p hl
    constructor
    · rw [← pyIndex_eq_none_iff p.steps i]
      cases hs : pyIndex p.steps i with
      | none => simp [update_step, hl, hs]
      | some st => simp [update_step, hl, hs]
    · intro h0 hlen
      obtain ⟨st, hs⟩ := pyIndex_isSome_of p.steps i (by omega) hlen
      cases h : update_step store tid i status out err now with
      | error e =>
        exfalso
        simp only [update_step, hl, hs] at h
        exact Except.noConfusion h
      | ok r => exact ⟨r.1, r.2, rfl⟩

/-- Witness for C4: on the 2-step plan `t2`, index 1 is accepted. -/
theorem c4_witness :
    (update_step w1 "t2" 1 "pending" none none "m9").toOption.isSome
      = true := by
  obtain ⟨s', p', h⟩ :=
    ((c4_update_step_error_conditions w1 "t2" 1 "pending" none none
      "m9").2 w1plan rfl).2 (by decide) (by decide)
  rw [h]
  rfl

/-- C5: in `update_step`, `started_at` is written only on an
`"in_progress"` update applied to a step whose current status is
`"pending"`; an `"in_progress"` update on a non-pending step, or any other
status, leaves `started_at` unchanged — so once set it is never
overwritten by repeated `"in_progress"` updates.  A `"completed"` update
and a `"failed"` update both set `completed_at`. -/
theorem c5_started_at_set_once_completed_at_on_finish (store : Store)
    (tid : String) (i : Int) (status : String) (out : Option JObj)
    (err : Option String) (now : String) (p : TaskPlan) (st : TaskStep)
    (hp : load_plan store tid = some p) (hst : pyIndex p.steps i = some st)
    (store' : Store) (p' : TaskPlan)
    (h : update_step store tid i status out err now = .ok (store', p'))
    (st' : TaskStep) (hst' : pyIndex p'.steps i = some st') :
    ((status = "in_progress" ∧ st.status = "pending") →
      st'.started_at = some now) ∧
    ((status = "in_progress" ∧ st.status ≠ "pending") →
      st'.started_at = st.started_at) ∧
    (status ≠ "in_progress" → st'.started_at = st.started_at) ∧
    (status = "completed" → st'.completed_at = some now) ∧
    (status = "failed" → st'.completed_at = some now) := by
  simp only [update_step, hp, hst] at h
  obtain ⟨h1, h2⟩ := Prod.mk.injEq .. ▸ Except.ok.inj h
  subst h2
  dsimp only at hst'
  rw [pyIndex_pySet_self _ hst] at hst'
  obtain rfl := Option.some.inj hst'
  refine ⟨?_, ?_, ?_, ?_, ?_⟩
  · rintro ⟨hin, hpend⟩
    simp [hin, hpend, apply_ite]
  · rintro ⟨hin, hpend⟩
    simp [hin, hpend, apply_ite]
  · intro hin
    by_cases hc : status = "completed"
    · simp [hc, apply_ite]
    · by_cases hf : status = "failed"
      · simp [hf, apply_ite]
      · simp [hin, hc, hf, apply_ite]
  · intro hc
    simp [hc, apply_ite]
  · intro hf
    simp [hf, apply_ite]

/-- Witness for C5: marking the pending step 0 of `t1` in progress sets
its `started_at` to the current time. -/
theorem c5_witness :
    ((pyIndex p4.steps 0).getD dummyStep).started_at = some "n1" :=
  (c5_started_at_set_once_completed_at_on_finish s1 "t1" 0 "in_progress"
    none none "n1" s1plan ((pyIndex s1plan.steps 0).getD dummyStep) rfl rfl
    s4 p4 rfl ((pyIndex p4.steps 0).getD dummyStep) rfl).1 ⟨rfl, rfl⟩

/-- C7: `checkpoint` replaces `metadata["last_checkpoint"]` wholesale with
the timestamp plus the supplied data, and leaves the plan's steps and
every other metadata key unchanged in the persisted plan. -/
theorem c7_checkpoint_frame (store : Store) (tid : String) (data : JValue)
    (now : String) (p : TaskPlan) (hp : load_plan store tid = some p)
    (hid : p.task_id = tid) (store' : Store)
    (h : checkpoint store tid data now = .ok store')
    (q : TaskPlan) (hq : load_plan store' tid = some q) :
    q.steps = p.steps ∧
    dictGet q.metadata "last_checkpoint"
      = some (.obj [("timestamp", .str now), ("data", data)]) ∧
    ∀ k, k ≠ "last_checkpoint" →
      dictGet q.metadata k = dictGet p.metadata k := by
  simp only [checkpoint, hp] at h
  obtain rfl : _ = store' := Except.ok.inj h
  rw [load_plan, savePlan] at hq
  rw [if_pos hid.symm] at hq
  obtain rfl : _ = q := Option.some.inj hq
  refine ⟨rfl, ?_, ?_⟩
  · exact dictGet_dictSet_self p.metadata "last_checkpoint" _
  · intro k hk
    exact dictGet_dictSet_ne p.metadata "last_checkpoint" k _ hk

/-- Witness for C7: the checkpoint on `t1` stores the payload under
`last_checkpoint` and leaves the steps untouched. -/
theorem c7_witness :
    dictGet c1plan.metadata "last_checkpoint"
      = some (.obj [("timestamp", .str "n1"), ("data", .str "payload")]) ∧
    c1plan.steps = s1plan.steps := by
  have hmain := c7_checkpoint_frame s1 "t1" (.str "payload") "n1" s1plan
    rfl rfl c1 rfl c1plan rfl
  exact ⟨hmain.2.1, hmain.1⟩

/-- C8: `get_next_step` returns the first step, in step order, whose
status is `"pending"`; it returns `None` when the plan does not exist,
when no step is pending (e.g. all completed or failed), and on a zero-step
plan. -/
theorem c8_next_step_is_first_pending (store : Store) (tid : String) :
    (load_plan store tid = none → get_next_step store tid = none) ∧
    (∀ p, load_plan store tid = some p →
      ((∀ s ∈ p.steps, s.status ≠ "pending") →
        get_next_step store tid = none) ∧
      (p.steps = [] → get_next_step store tid = none) ∧
      (∀ st, get_next_step store tid = some st →
        st.status = "pending" ∧
        ∃ j, p.steps.get? j = some st ∧
          ∀ m, m < j → ∀ b, p.steps.get? m = some b →
            b.status ≠ "pending")) := by
  constructor
  · intro hl
    simp [get_next_step, hl]
  · intro p hl
    refine ⟨?_, ?_, ?_⟩
    · intro hall
      simp only [get_next_step, hl]
      rw [List.find?_eq_none]
      intro x hx
      simpa using hall x hx
    · intro hnil
      simp [get_next_step, hl, hnil]
    · intro st hst
      simp only [get_next_step, hl] at hst
      obtain ⟨hp1, j, hj, hfirst⟩ := find?_eq_some_first _ p.steps st hst
      refine ⟨by simpa using hp1, j, hj, ?_⟩
      intro m hm b hb
      simpa using hfirst m hm b hb

/-- Witness for C8: on `t2` with step 0 completed, the returned next step
is pending (it is step 1). -/
theorem c8_witness : w2step.status = "pending" :=
  (((c8_next_step_is_first_pending w2 "t2").2 w2plan rfl).2.2 w2step rfl).1

/-- C9 counterexample: the zero-step plan `t0` exists, yet
`get_progress_summary` raises `ZeroDivisionError` instead of returning a
summary — refuting the claim for every existing plan. -/
theorem c9_zero_step_plan_summary_raises :
    ((load_plan z1 "t0").map
        (fun p => (p.total_steps, p.completed_steps)) = some (0, 0)) ∧
    get_progress_summary z1 "t0" = .error .zeroDivisionError :=
  ⟨rfl, rfl⟩

/-- C9 amended: for every existing plan whose `total_steps` is nonzero
(and whose stored `current_step_index` is at least `-len(steps)`, as it is
for every plan the tracker writes), `get_progress_summary` returns a
summary whose percentage is `completed_steps / total_steps * 100` rounded
to one decimal place and whose status is `"complete"` exactly when
`completed_steps = total_steps`, else `"in_progress"`; when the plan does
not exist it returns the error record rather than raising. -/
theorem c9_summary_fields (store : Store) (tid : String) :
    (load_plan store tid = none →
      get_progress_summary store tid = .ok (.errRecord "Task not found")) ∧
    (∀ p, load_plan store tid = some p → p.total_steps ≠ 0 →
      -(p.steps.length : Int) ≤ p.current_step_index →
      ∃ s, get_progress_summary store tid = .ok (.summary s) ∧
        s.percentage = pyRound1
          ((p.completed_steps : ℚ) / (p.total_steps : ℚ) * 100) ∧
        (s.status = "complete" ↔ p.completed_steps = p.total_steps) ∧
        (s.status ≠ "complete" → s.status = "in_progress")) := by
  constructor
  · intro hl
    simp [get_progress_summary, hl]
  · intro p hl h0 hidx
    by_cases hcur : p.current_step_index < (p.steps.length : Int)
    · obtain ⟨st, hs⟩ := pyIndex_isSome_of p.steps p.current_step_index
        hidx hcur
      refine ⟨{ task_id := tid
                title := p.title
                progress := toString p.completed_steps ++ "/" ++
                  toString p.total_steps
                percentage := pyRound1
                  ((p.completed_steps : ℚ) / (p.total_steps : ℚ) * 100)
                current_step := st.description
                status := if p.completed_steps = p.total_steps then
                  "complete" else "in_progress"
                steps := p.steps.map (fun q => (q.description, q.status)) },
        ?_, rfl, ?_, ?_⟩
      · simp only [get_progress_summary, hl, if_neg h0, if_pos hcur, hs]
      · by_cases hc : p.completed_steps = p.total_steps <;> simp [hc]
      · by_cases hc : p.completed_steps = p.total_steps <;> simp [hc]
    · refine ⟨{ task_id := tid
                title := p.title
                progress := toString p.completed_steps ++ "/" ++
                  toString p.total_steps
                percentage := pyRound1
                  ((p.completed_steps : ℚ) / (p.total_steps : ℚ) * 100)
                current_step := "Complete"
                status := if p.completed_steps = p.total_steps then
                  "complete" else "in_progress"
                steps := p.steps.map (fun q => (q.description, q.status)) },
        ?_, rfl, ?_, ?_⟩
      · simp only [get_progress_summary, hl, if_neg h0, if_neg hcur]
      · by_cases hc : p.completed_steps = p.total_steps <;> simp [hc]
      · by_cases hc : p.completed_steps = p.total_steps <;> simp [hc]

/-- Witness for C9 on the plan `t1` after its single step completed. -/
theorem c9_witness :
    (get_progress_summary s2 "t1").toOption.isSome = true := by
  obtain ⟨s, hs, -, -, -⟩ :=
    (c9_summary_fields s2 "t1").2 p2 rfl (by decide) (by decide)
  rw [hs]
  rfl
